import Mathlib

/-!
# Verification of the local-sales-finder geospatial core

Shallow embedding, over the real numbers, of the geospatial core of the
repository:

* the client-side distance function `calculateDistance` and map-bounds
  estimator `calculateMapBounds` (src/src/utils/locationUtils.js);
* the server-side distance function `serverCalculateDistance`, the
  per-token dispatch decision of `onNewSaleEvent`, and the failure
  classification and token pruning of `sendNotificationToUser`
  (src/unnamed/part_000, the Firebase Cloud Function);
* the `Home` component's `onSnapshot` listener, which filters and sorts
  the live-sales feed, and the `onSuccess` coordinate-update step of
  `fetchLocation` (src/src/utils/locationUtils.js).

JavaScript numbers are modelled as real numbers; `Math.sin`, `Math.cos`,
`Math.sqrt`, `Math.atan2` as their Mathlib counterparts.  JavaScript object
fields that may be absent are modelled with `Option`; JavaScript
truthiness of a numeric field is "present and nonzero".
-/

noncomputable section

/-- A `{latitude, longitude}` object, as used throughout the repository. -/
structure Coordinates where
  latitude : ℝ
  longitude : ℝ
deriving DecidableEq

/-- JavaScript `Math.atan2 y x`, modelled on the reals.  JavaScript's `Math.atan2`
returns the angle in `(-π, π]`; on the branch cut and at the origin it
follows the IEEE convention (`atan2 0 0 = 0` for positive zero, the only
zero ℝ has). -/
def atan2 (y x : ℝ) : ℝ :=
  if 0 < x then Real.arctan (y / x)
  else if x < 0 then
    (if 0 ≤ y then Real.arctan (y / x) + Real.pi else Real.arctan (y / x) - Real.pi)
  else
    (if 0 < y then Real.pi / 2 else if y < 0 then -(Real.pi / 2) else 0)

/-- The helper `toRad` from src/src/utils/locationUtils.js:
`const toRad = (value) => (value * Math.PI) / 180`. -/
def toRad (value : ℝ) : ℝ := value * Real.pi / 180

/-- The client-side haversine distance, from src/src/utils/locationUtils.js
(`calculateDistance`), Earth radius constant `R = 3959` miles. -/
def calculateDistance (lat1 lon1 lat2 lon2 : ℝ) : ℝ :=
  let R : ℝ := 3959
  let dLat := toRad (lat2 - lat1)
  let dLon := toRad (lon2 - lon1)
  let a := Real.sin (dLat / 2) * Real.sin (dLat / 2) +
    Real.cos (toRad lat1) * Real.cos (toRad lat2) *
      Real.sin (dLon / 2) * Real.sin (dLon / 2)
  let c := 2 * atan2 (Real.sqrt a) (Real.sqrt (1 - a))
  R * c

/-- The server-side haversine distance, from src/unnamed/part_000
(`calculateDistance` in the Cloud Function), Earth radius constant
`R = 3963.0` miles. -/
def serverCalculateDistance (lat1 lon1 lat2 lon2 : ℝ) : ℝ :=
  let R : ℝ := 3963
  let lat1Rad := lat1 * Real.pi / 180
  let lat2Rad := lat2 * Real.pi / 180
  let latDiff := (lat2 - lat1) * Real.pi / 180
  let lonDiff := (lon2 - lon1) * Real.pi / 180
  let a := Real.sin (latDiff / 2) * Real.sin (latDiff / 2) +
    Real.cos lat1Rad * Real.cos lat2Rad *
      Real.sin (lonDiff / 2) * Real.sin (lonDiff / 2)
  let c := 2 * atan2 (Real.sqrt a) (Real.sqrt (1 - a))
  R * c

/-- The haversine intermediate `a`, shared by both distance functions. -/
def haversineA (lat1 lon1 lat2 lon2 : ℝ) : ℝ :=
  Real.sin (toRad (lat2 - lat1) / 2) * Real.sin (toRad (lat2 - lat1) / 2) +
    Real.cos (toRad lat1) * Real.cos (toRad lat2) *
      Real.sin (toRad (lon2 - lon1) / 2) * Real.sin (toRad (lon2 - lon1) / 2)

/-! ## Server-side notification dispatcher (src/unnamed/part_000) -/

/-- A registration document in some owner's `tokens` sub-collection
(the `collectionGroup('tokens')` spans every owner).  `location` and
`searchRadius` may be absent; JavaScript truthiness additionally treats a
stored `searchRadius` of `0` as absent. -/
structure TokenData where
  owner : String
  token : String
  location : Option Coordinates
  searchRadius : Option ℝ

/-- The per-token body of the `tokenDocs.docs.map` callback in
`onNewSaleEvent` (src/unnamed/part_000 lines 78–96), for a sale event whose
`location` field may be absent.  Returns `.ok none` when the token is
skipped (`!tokenData.location || !tokenData.searchRadius`) or out of range,
`.ok (some tok)` when `sendNotificationToUser(tokenData.token, …)` is
invoked, and `.error ()` when the callback throws a `TypeError` reading
`saleEvent.location.latitude` with `location` undefined. -/
def evaluateToken (saleLocation : Option Coordinates) (t : TokenData) :
    Except Unit (Option String) :=
  match t.location, t.searchRadius with
  | none, _ => .ok none
  | some _, none => .ok none
  | some loc, some r =>
    if r = 0 then .ok none
    else
      match saleLocation with
      | none => .error ()
      | some sl =>
        if serverCalculateDistance loc.latitude loc.longitude
            sl.latitude sl.longitude ≤ r
        then .ok (some t.token) else .ok none

/-- The tokens for which `onNewSaleEvent` initiates a notification send.
In the missing-coordinates case an eligible callback throws before
reaching its send, so it contributes nothing here. -/
def sentTokens (saleLocation : Option Coordinates) (tokens : List TokenData) :
    List String :=
  tokens.filterMap (fun t => ((evaluateToken saleLocation t).toOption).join)

/-- Whether the `Promise.all` at the end of `onNewSaleEvent` rejects:
it does exactly when some per-token callback threw. -/
def fanoutRejects (saleLocation : Option Coordinates) (tokens : List TokenData) :
    Prop :=
  ∃ t ∈ tokens, evaluateToken saleLocation t = .error ()

/-- The outcome `messaging.send` reports for one message, supplied by the
delivery environment. -/
inductive SendOutcome where
  | success
  | failure (code : String)

/-- The Firebase error code for a permanently invalid token. -/
def tokenNotRegistered : String := "messaging/registration-token-not-registered"

/-- The function `sendNotificationToUser` (src/unnamed/part_000 lines 31–66), acting on
the registration store (the flat list of all `tokens` documents across all
owners, as seen by `collectionGroup('tokens')`).  A successful send leaves
the store unchanged; a failed send with code
`messaging/registration-token-not-registered` deletes every document whose
`token` field equals the sent token; any other failure is logged and
otherwise ignored.  The `try/catch` swallows the error, so the function
itself never throws. -/
def sendNotificationToUser (outcome : SendOutcome) (store : List TokenData)
    (token : String) : List TokenData :=
  match outcome with
  | .success => store
  | .failure code =>
    if code = tokenNotRegistered then
      store.filter (fun d => d.token ≠ token)
    else store

/-- The dispatch fan-out over a list of in-range tokens: each send is
attempted in turn with its environment-given outcome, threading the store;
the second component records which sends were attempted. -/
def dispatchSends (outcome : String → SendOutcome) (store : List TokenData)
    (toks : List String) : List TokenData × List String :=
  toks.foldl
    (fun acc tk => (sendNotificationToUser (outcome tk) acc.1 tk, acc.2 ++ [tk]))
    (store, [])

/-! ## Client-side live feed (src/src/utils/locationUtils.js, `Home`) -/

/-- A sale document of the snapshot, `{ id: doc.id, ...doc.data() }`.
Document ids are modelled as naturals (an ordered opaque identity);
`location` and `address` may be absent. -/
structure SaleDoc where
  id : ℕ
  location : Option Coordinates
  address : Option String

/-- An entry of `updatedSales`: the spread sale plus the computed
`distance` and `address` fields. -/
structure FeedItem where
  sale : SaleDoc
  distance : ℝ
  address : Option String

/-- JavaScript `Math.round`: round half towards positive infinity. -/
def jsRound (x : ℝ) : ℝ := ⌊x + 1 / 2⌋

/-- The eventual outcome of one `snapshot.forEach` callback in the `Home`
`onSnapshot` listener (src/src/utils/locationUtils.js lines 846–872), with
the reverse geocoder passed in as an oracle and the callback's `await`
collapsed: the sale's item whether its push ran before the publish or was
deferred past it.  `const saleLocation = sale.location || {}` followed by
`if (!saleLocation.latitude || !saleLocation.longitude) return` runs
synchronously, before any `await`, and skips a missing location object and
also a latitude or longitude of `0` (falsy); a sale it skips is never
pushed at any time, which is all the exclusion theorem below needs.  The
published collection itself is modelled separately by
`processSaleDocSync`/`publishedSales`, which keep the `await` suspension
visible. -/
def processSaleDoc (geocode : ℝ → ℝ → Option String) (coords : Coordinates)
    (radius : ℝ) (d : SaleDoc) : Option FeedItem :=
  match d.location with
  | none => none
  | some loc =>
    if loc.latitude = 0 ∨ loc.longitude = 0 then none
    else
      let distance := calculateDistance coords.latitude coords.longitude
        loc.latitude loc.longitude
      if distance ≤ radius then
        let address :=
          match d.address with
          | some a => if a = "" then geocode loc.latitude loc.longitude else some a
          | none => geocode loc.latitude loc.longitude
        some ⟨d, jsRound (distance * 10) / 10, address⟩
      else none

/-- The comparator `(a, b) => a.distance - b.distance`, as the total
preorder it induces on feed items. -/
def feedLe (a b : FeedItem) : Bool := a.distance ≤ b.distance

/-- The sorted list of all items any callback of one snapshot run ever
pushes (awaits collapsed, deferred pushes included).  Used only for the
coordinate-exclusion claim: a sale skipped by the synchronous coordinate
test is absent from this over-approximation, hence from the published
collection and from every later mutation of it.  The collection actually
passed to `setSales` is `publishedSales` below. -/
def processSnapshot (geocode : ℝ → ℝ → Option String) (coords : Coordinates)
    (radius : ℝ) (docs : List SaleDoc) : List FeedItem :=
  (docs.filterMap (processSaleDoc geocode coords radius)).mergeSort feedLe

/-- The synchronous part of one `snapshot.forEach` callback: the item it
pushes onto `updatedSales` before the loop ends.  `snapshot.forEach` does
not await its async callbacks, and a callback suspends at
`sale.address || await getAddressFromCoordinates(…)` exactly when the
stored `address` is absent or `""` (falsy); such a sale's push runs only
after `updatedSales.sort(…)` and `setSales(updatedSales)` have executed,
so it contributes nothing here.  Only a retained sale with a truthy stored
address pushes synchronously, with that stored address. -/
def processSaleDocSync (coords : Coordinates) (radius : ℝ) (d : SaleDoc) :
    Option FeedItem :=
  match d.location with
  | none => none
  | some loc =>
    if loc.latitude = 0 ∨ loc.longitude = 0 then none
    else
      let distance := calculateDistance coords.latitude coords.longitude
        loc.latitude loc.longitude
      if distance ≤ radius then
        match d.address with
        | some a =>
          if a = "" then none
          else some ⟨d, jsRound (distance * 10) / 10, some a⟩
        | none => none
      else none

/-- The collection the `Home` `onSnapshot` listener actually publishes for
one snapshot: the synchronously pushed items (snapshot order), sorted by
`updatedSales.sort((a, b) => a.distance - b.distance)` — a stable sort —
and passed to `setSales`. -/
def publishedSales (coords : Coordinates) (radius : ℝ) (docs : List SaleDoc) :
    List FeedItem :=
  (docs.filterMap (processSaleDocSync coords radius)).mergeSort feedLe

/-- The deferred push of one `snapshot.forEach` callback: the item a
retained sale without a truthy stored address pushes after its `await`
resolves, with the geocoder's result as address.  These pushes run after
`setSales` and mutate the already-published array; they are not part of
the published collection. -/
def processSaleDocDeferred (geocode : ℝ → ℝ → Option String)
    (coords : Coordinates) (radius : ℝ) (d : SaleDoc) : Option FeedItem :=
  match d.location with
  | none => none
  | some loc =>
    if loc.latitude = 0 ∨ loc.longitude = 0 then none
    else
      let distance := calculateDistance coords.latitude coords.longitude
        loc.latitude loc.longitude
      if distance ≤ radius then
        match d.address with
        | some a =>
          if a = "" then
            some ⟨d, jsRound (distance * 10) / 10,
              geocode loc.latitude loc.longitude⟩
          else none
        | none =>
          some ⟨d, jsRound (distance * 10) / 10,
            geocode loc.latitude loc.longitude⟩
      else none

/-- The items pushed after the publish for one snapshot run (in snapshot
order; the actual interleaving of the resolved awaits is scheduler-
dependent and not modelled beyond membership). -/
def deferredSaleDocs (geocode : ℝ → ℝ → Option String) (coords : Coordinates)
    (radius : ℝ) (docs : List SaleDoc) : List FeedItem :=
  docs.filterMap (processSaleDocDeferred geocode coords radius)

/-- The `onSuccess` coordinate-update step of `fetchLocation`
(src/src/utils/locationUtils.js lines 740–751): the `setCoordinates`
updater returns the new position when there is no previous one or the move
exceeds 0.1 mile, and returns the previous value unchanged otherwise. -/
def onSuccessUpdate (prev : Option Coordinates) (p : Coordinates) : Coordinates :=
  match prev with
  | none => p
  | some q =>
    if calculateDistance q.latitude q.longitude p.latitude p.longitude > 0.1
    then p else q

/-! ## Map bounds (src/src/utils/locationUtils.js, `calculateMapBounds`) -/

/-- A Leaflet `latLngBounds` given by its south-west and north-east
corners. -/
structure MapBounds where
  southWest : Coordinates
  northEast : Coordinates

/-- The function `calculateMapBounds` (src/src/utils/locationUtils.js lines 501–520). -/
def calculateMapBounds (center : Coordinates) (radius : ℝ) : MapBounds :=
  let milesPerDegreeAtEquator : ℝ := 69.172
  let latOffset := radius / milesPerDegreeAtEquator
  let latitudeRadians := center.latitude * (Real.pi / 180)
  let lngOffset := radius / (milesPerDegreeAtEquator * Real.cos latitudeRadians)
  let minOffset := max 0.001 (min latOffset lngOffset)
  ⟨⟨center.latitude - minOffset, center.longitude - minOffset⟩,
   ⟨center.latitude + minOffset, center.longitude + minOffset⟩⟩

/-! ## Concrete fixtures for counterexamples and witnesses -/

/-- A reverse geocoder that resolves nothing. -/
def gNone : ℝ → ℝ → Option String := fun _ _ => none

/-- A sale with id 2 at `(5, 5)`, listed first in the snapshot. -/
def saleA : SaleDoc := ⟨2, some ⟨5, 5⟩, some "x"⟩

/-- A sale with id 1 at the same location `(5, 5)`, listed second. -/
def saleB : SaleDoc := ⟨1, some ⟨5, 5⟩, some "y"⟩

/-- The feed entry produced for `saleA` by a viewer at `(5, 5)`. -/
def itemA : FeedItem := ⟨saleA, 0, some "x"⟩

/-- The feed entry produced for `saleB` by a viewer at `(5, 5)`. -/
def itemB : FeedItem := ⟨saleB, 0, some "y"⟩

/-! ## Haversine algebra -/

lemma calculateDistance_eq (lat1 lon1 lat2 lon2 : ℝ) :
    calculateDistance lat1 lon1 lat2 lon2 =
      3959 * (2 * atan2 (Real.sqrt (haversineA lat1 lon1 lat2 lon2))
        (Real.sqrt (1 - haversineA lat1 lon1 lat2 lon2))) := by
  simp only [calculateDistance, haversineA]

lemma serverCalculateDistance_eq (lat1 lon1 lat2 lon2 : ℝ) :
    serverCalculateDistance lat1 lon1 lat2 lon2 =
      3963 * (2 * atan2 (Real.sqrt (haversineA lat1 lon1 lat2 lon2))
        (Real.sqrt (1 - haversineA lat1 lon1 lat2 lon2))) := by
  simp only [serverCalculateDistance, haversineA, toRad]

/-- Same-point haversine intermediate vanishes. -/
lemma haversineA_self (lat lon : ℝ) : haversineA lat lon lat lon = 0 := by
  simp [haversineA, toRad]

@[simp] lemma atan2_zero_one : atan2 0 1 = 0 := by
  simp [atan2, Real.arctan_zero]

/-- The two distance functions are proportional: server = (3963/3959) · client. -/
lemma serverCalculateDistance_scale (lat1 lon1 lat2 lon2 : ℝ) :
    serverCalculateDistance lat1 lon1 lat2 lon2 =
      (3963 / 3959) * calculateDistance lat1 lon1 lat2 lon2 := by
  rw [serverCalculateDistance_eq, calculateDistance_eq]
  ring

/-- The haversine intermediate is symmetric in the two points. -/
lemma haversineA_comm (lat1 lon1 lat2 lon2 : ℝ) :
    haversineA lat1 lon1 lat2 lon2 = haversineA lat2 lon2 lat1 lon1 := by
  have h1 : toRad (lat1 - lat2) / 2 = -(toRad (lat2 - lat1) / 2) := by
    simp only [toRad]; ring
  have h2 : toRad (lon1 - lon2) / 2 = -(toRad (lon2 - lon1) / 2) := by
    simp only [toRad]; ring
  simp only [haversineA, h1, h2, Real.sin_neg]
  ring

lemma calculateDistance_comm (lat1 lon1 lat2 lon2 : ℝ) :
    calculateDistance lat1 lon1 lat2 lon2 = calculateDistance lat2 lon2 lat1 lon1 := by
  rw [calculateDistance_eq, calculateDistance_eq, haversineA_comm]

lemma calculateDistance_self (lat lon : ℝ) : calculateDistance lat lon lat lon = 0 := by
  rw [calculateDistance_eq, haversineA_self]
  simp

lemma serverCalculateDistance_comm (lat1 lon1 lat2 lon2 : ℝ) :
    serverCalculateDistance lat1 lon1 lat2 lon2 =
      serverCalculateDistance lat2 lon2 lat1 lon1 := by
  rw [serverCalculateDistance_scale, serverCalculateDistance_scale,
    calculateDistance_comm]

lemma serverCalculateDistance_self (lat lon : ℝ) :
    serverCalculateDistance lat lon lat lon = 0 := by
  rw [serverCalculateDistance_scale, calculateDistance_self, mul_zero]

/-! ## Concrete evaluation helpers -/

lemma haversineA_antipodal : haversineA 0 0 0 180 = 1 := by
  have h : toRad (180 - 0) / 2 = Real.pi / 2 := by
    simp only [toRad]; ring
  simp [haversineA, toRad, h, Real.sin_pi_div_two]

lemma atan2_one_zero : atan2 1 0 = Real.pi / 2 := by
  norm_num [atan2]

lemma calculateDistance_antipodal : calculateDistance 0 0 0 180 = 3959 * Real.pi := by
  rw [calculateDistance_eq, haversineA_antipodal]
  norm_num [atan2_one_zero]
  ring

/-! ## Theorems -/

/-- Claim C9: for every pair of coordinates the distance is symmetric, and
the distance from a coordinate to itself is `0`; this holds for both the
client-side distance function (`calculateDistance` in locationUtils.js) and
the server-side one (`calculateDistance` in the Cloud Function). -/
theorem distance_symm_and_self_zero (lat1 lon1 lat2 lon2 : ℝ) :
    calculateDistance lat1 lon1 lat2 lon2 = calculateDistance lat2 lon2 lat1 lon1 ∧
    serverCalculateDistance lat1 lon1 lat2 lon2 =
      serverCalculateDistance lat2 lon2 lat1 lon1 ∧
    calculateDistance lat1 lon1 lat1 lon1 = 0 ∧
    serverCalculateDistance lat1 lon1 lat1 lon1 = 0 :=
  ⟨calculateDistance_comm lat1 lon1 lat2 lon2,
   serverCalculateDistance_comm lat1 lon1 lat2 lon2,
   calculateDistance_self lat1 lon1,
   serverCalculateDistance_self lat1 lon1⟩

/-- Claim C3, counterexample: the server-side and client-side distance
functions do not return equal distances for every pair of coordinates —
they disagree already at `(0,0)` vs `(0,180)`, because the server uses
Earth radius `3963` and the client `3959`. -/
theorem server_client_distance_ne :
    calculateDistance 0 0 0 180 ≠ serverCalculateDistance 0 0 0 180 := by
  rw [serverCalculateDistance_scale, calculateDistance_antipodal]
  intro h
  have h2 : (3959 : ℝ) * Real.pi = 3963 * Real.pi := by
    rw [h]; ring
  have := mul_right_cancel₀ Real.pi_ne_zero h2
  norm_num at this

/-- Claim C3, amended: the server-side dispatcher distance uses Earth
radius `3963` miles and the client-side feed distance `3959` miles, so for
every pair of coordinates the server distance equals `3963/3959` times the
client distance, and the two paths return equal values only where the
distance is `0`. -/
theorem server_client_distance_proportional (lat1 lon1 lat2 lon2 : ℝ) :
    serverCalculateDistance lat1 lon1 lat2 lon2 =
      (3963 / 3959) * calculateDistance lat1 lon1 lat2 lon2 ∧
    (serverCalculateDistance lat1 lon1 lat2 lon2 =
        calculateDistance lat1 lon1 lat2 lon2 ↔
      calculateDistance lat1 lon1 lat2 lon2 = 0) := by
  refine ⟨serverCalculateDistance_scale lat1 lon1 lat2 lon2, ?_, ?_⟩
  · intro h
    rw [serverCalculateDistance_scale] at h
    nlinarith [h]
  · intro h
    rw [serverCalculateDistance_scale, h, mul_zero]

/-- Claim C8: the location tracker's coordinate-update step returns the
newly acquired position exactly when there is no previously propagated
position or the move from it exceeds 0.1 mile, and returns the stored
coordinates unchanged for a move of at most 0.1 mile. -/
theorem coordinate_update_threshold (p q : Coordinates) :
    onSuccessUpdate none p = p ∧
    (0.1 < calculateDistance q.latitude q.longitude p.latitude p.longitude →
      onSuccessUpdate (some q) p = p) ∧
    (calculateDistance q.latitude q.longitude p.latitude p.longitude ≤ 0.1 →
      onSuccessUpdate (some q) p = q) := by
  refine ⟨rfl, ?_, ?_⟩
  · intro h
    simp only [onSuccessUpdate]
    rw [if_pos h]
  · intro h
    simp only [onSuccessUpdate]
    rw [if_neg (not_lt.mpr h)]

/-- Witness for C8: with no previous position the update propagates; with a
previous position equal to the new one (a move of 0 ≤ 0.1 mile) the stored
value is returned unchanged. -/
theorem coordinate_update_threshold_witness :
    onSuccessUpdate none ⟨1, 2⟩ = ⟨1, 2⟩ ∧
    onSuccessUpdate (some ⟨1, 2⟩) ⟨1, 2⟩ = ⟨1, 2⟩ :=
  ⟨(coordinate_update_threshold ⟨1, 2⟩ ⟨1, 2⟩).1,
   (coordinate_update_threshold ⟨1, 2⟩ ⟨1, 2⟩).2.2
     (by rw [calculateDistance_self]; norm_num)⟩

/-- Claim C1: for a sale event with coordinates, a registration with a
location and a (positive) radius is sent a notification iff the computed
distance is at most its radius — the boundary `distance = radius` is
inclusive — and a registration lacking `location` or `searchRadius` is
skipped silently and never notified. -/
theorem dispatcher_notifies_iff (sl : Coordinates) (t : TokenData)
    (loc : Coordinates) (r : ℝ) :
    (t.location = some loc → t.searchRadius = some r → 0 < r →
      (evaluateToken (some sl) t = .ok (some t.token) ↔
        serverCalculateDistance loc.latitude loc.longitude
          sl.latitude sl.longitude ≤ r)) ∧
    (t.location = none ∨ t.searchRadius = none →
      evaluateToken (some sl) t = .ok none ∧
        evaluateToken (some sl) t ≠ .ok (some t.token)) := by
  obtain ⟨ow, tok, tl, ts⟩ := t
  constructor
  · rintro rfl rfl hpos
    simp only [evaluateToken]
    rw [if_neg hpos.ne']
    split_ifs with h <;> simp [h]
  · rintro (rfl | rfl)
    · exact ⟨rfl, by simp [evaluateToken]⟩
    · cases tl <;> exact ⟨rfl, by simp [evaluateToken]⟩

/-- Witness for C1: a registration at the sale's own location with radius
10 (distance 0 ≤ 10) is sent a notification. -/
theorem dispatcher_notifies_iff_witness :
    evaluateToken (some ⟨0, 0⟩) ⟨"owner", "tok", some ⟨0, 0⟩, some 10⟩ =
      .ok (some "tok") :=
  ((dispatcher_notifies_iff ⟨0, 0⟩ ⟨"owner", "tok", some ⟨0, 0⟩, some 10⟩
      ⟨0, 0⟩ 10).1 rfl rfl (by norm_num)).mpr
    (by rw [serverCalculateDistance_self]; norm_num)

lemma evaluateToken_none_eval (t : TokenData) :
    ((evaluateToken none t).toOption).join = none ∧
      (evaluateToken none t = .error () ↔
        ∃ loc r, t.location = some loc ∧ t.searchRadius = some r ∧ r ≠ 0) := by
  obtain ⟨ow, tok, tl, ts⟩ := t
  cases tl with
  | none => simp [evaluateToken, Except.toOption, Option.join]
  | some loc =>
    cases ts with
    | none => simp [evaluateToken, Except.toOption, Option.join]
    | some r =>
      by_cases hr : r = 0 <;>
        simp [evaluateToken, Except.toOption, Option.join, hr]

/-- Claim C4, amended: for a sale-creation event whose sale lacks
coordinates, the dispatcher initiates no sends (and hence no pruning
deletes), but the handler returns successfully only when no registration
has both a location and a (truthy) radius: any such registration makes its
callback throw a `TypeError` reading `saleEvent.location.latitude`, so the
`Promise.all` rejects and the handler errors. -/
theorem missing_coordinates_dispatch (tokens : List TokenData) :
    sentTokens none tokens = [] ∧
    (fanoutRejects none tokens ↔
      ∃ t ∈ tokens, ∃ loc r,
        t.location = some loc ∧ t.searchRadius = some r ∧ r ≠ 0) := by
  constructor
  · exact List.filterMap_eq_nil_iff.mpr fun t _ => (evaluateToken_none_eval t).1
  · constructor
    · rintro ⟨t, ht, h⟩
      exact ⟨t, ht, (evaluateToken_none_eval t).2.mp h⟩
    · rintro ⟨t, ht, h⟩
      exact ⟨t, ht, (evaluateToken_none_eval t).2.mpr h⟩

/-- Claim C4, counterexample: a sale event with no coordinates does not
make the dispatcher return successfully when an eligible registration
exists — the fan-out rejects (the callback throws reading
`saleEvent.location.latitude` of `undefined`). -/
theorem missing_coordinates_rejects :
    fanoutRejects none [⟨"owner", "tok", some ⟨0, 0⟩, some 10⟩] := by
  refine ⟨⟨"owner", "tok", some ⟨0, 0⟩, some 10⟩, List.mem_singleton.mpr rfl, ?_⟩
  norm_num [evaluateToken]

lemma dispatchSends_foldl_snd (outcome : String → SendOutcome) :
    ∀ (toks : List String) (st : List TokenData) (acc : List String),
      (toks.foldl
        (fun acc tk =>
          (sendNotificationToUser (outcome tk) acc.1 tk, acc.2 ++ [tk]))
        (st, acc)).2 = acc ++ toks := by
  intro toks
  induction toks with
  | nil => intro st acc; simp
  | cons tk rest ih =>
    intro st acc
    simp only [List.foldl_cons]
    rw [ih]
    simp

/-- Claim C5: a delivery failure with code
`messaging/registration-token-not-registered` — and only that code —
triggers pruning; pruning removes every registration document holding that
token value across all owners and keeps every other document; a successful
send and every other failure code leave the store unchanged (logged and
ignored); and the fan-out attempts every send regardless of the outcomes of
the others (no per-registration failure aborts the rest). -/
theorem prune_only_on_invalid_token (store : List TokenData) (token : String) :
    sendNotificationToUser .success store token = store ∧
    (∀ code, code ≠ tokenNotRegistered →
      sendNotificationToUser (.failure code) store token = store) ∧
    (∀ d ∈ sendNotificationToUser (.failure tokenNotRegistered) store token,
      d.token ≠ token) ∧
    (∀ d ∈ store, d.token ≠ token →
      d ∈ sendNotificationToUser (.failure tokenNotRegistered) store token) ∧
    (∀ (outcome : String → SendOutcome) (toks : List String),
      (dispatchSends outcome store toks).2 = toks) := by
  refine ⟨rfl, ?_, ?_, ?_, ?_⟩
  · intro code h
    simp [sendNotificationToUser, h]
  · intro d hd
    simp [sendNotificationToUser, List.mem_filter] at hd
    exact hd.2
  · intro d hd h
    simp [sendNotificationToUser, List.mem_filter]
    exact ⟨hd, h⟩
  · intro outcome toks
    unfold dispatchSends
    rw [dispatchSends_foldl_snd]
    simp

/-- Witness for C5: over a three-document store spanning three owners, a
transient failure code leaves the store unchanged; after pruning token "A"
the document of owner "o3" (token "B") survives; and a fan-out of two sends
in which every send fails still attempts both sends. -/
theorem prune_only_on_invalid_token_witness :
    sendNotificationToUser (.failure "internal-error")
      [⟨"o1", "A", none, none⟩, ⟨"o2", "A", none, none⟩,
        ⟨"o3", "B", none, none⟩] "A" =
      [⟨"o1", "A", none, none⟩, ⟨"o2", "A", none, none⟩,
        ⟨"o3", "B", none, none⟩] ∧
    (⟨"o3", "B", none, none⟩ : TokenData) ∈
      sendNotificationToUser (.failure tokenNotRegistered)
        [⟨"o1", "A", none, none⟩, ⟨"o2", "A", none, none⟩,
          ⟨"o3", "B", none, none⟩] "A" ∧
    (dispatchSends (fun _ => .failure "internal-error")
      [⟨"o1", "A", none, none⟩, ⟨"o2", "A", none, none⟩,
        ⟨"o3", "B", none, none⟩] ["A", "B"]).2 = ["A", "B"] := by
  refine ⟨(prune_only_on_invalid_token _ "A").2.1 "internal-error" (by decide),
    (prune_only_on_invalid_token _ "A").2.2.2.1 _ ?_ (by decide),
    (prune_only_on_invalid_token _ "A").2.2.2.2 _ _⟩
  exact List.mem_cons_of_mem _ (List.mem_cons_of_mem _ (List.mem_singleton.mpr rfl))

/-! ## Live-feed lemmas -/

lemma processSaleDoc_sale (g : ℝ → ℝ → Option String) (c : Coordinates)
    (r : ℝ) (d : SaleDoc) (item : FeedItem)
    (h : processSaleDoc g c r d = some item) : item.sale = d := by
  obtain ⟨i, dl, da⟩ := d
  cases dl with
  | none => simp [processSaleDoc] at h
  | some loc =>
    simp only [processSaleDoc] at h
    split_ifs at h with h1 h2
    simp only [Option.some.injEq] at h
    rw [← h]

lemma processSaleDoc_zero (g : ℝ → ℝ → Option String) (c : Coordinates)
    (r : ℝ) (d : SaleDoc) (loc : Coordinates) (hl : d.location = some loc)
    (hz : loc.latitude = 0 ∨ loc.longitude = 0) :
    processSaleDoc g c r d = none := by
  obtain ⟨i, dl, da⟩ := d
  simp only at hl
  subst hl
  simp only [processSaleDoc]
  rw [if_pos hz]

lemma feedLe_trans : ∀ (a b c : FeedItem), feedLe a b → feedLe b c → feedLe a c := by
  intro a b c hab hbc
  simp only [feedLe, decide_eq_true_eq] at hab hbc ⊢
  exact le_trans hab hbc

lemma feedLe_total : ∀ (a b : FeedItem), feedLe a b || feedLe b a := by
  intro a b
  simp only [feedLe, Bool.or_eq_true, decide_eq_true_eq]
  exact le_total a.distance b.distance

lemma jsRound_zero : jsRound 0 = 0 := by
  have h : ⌊(0 : ℝ) + 1 / 2⌋ = 0 :=
    Int.floor_eq_zero_iff.mpr (by norm_num [Set.mem_Ico])
  rw [jsRound, h, Int.cast_zero]

lemma processSaleDocSync_sale (c : Coordinates) (r : ℝ) (d : SaleDoc)
    (item : FeedItem) (h : processSaleDocSync c r d = some item) :
    item.sale = d := by
  obtain ⟨i, dl, da⟩ := d
  cases dl with
  | none => simp [processSaleDocSync] at h
  | some loc =>
    cases da with
    | none =>
      simp only [processSaleDocSync] at h
      split_ifs at h
    | some a =>
      simp only [processSaleDocSync] at h
      split_ifs at h with h1 h2 h3
      simp only [Option.some.injEq] at h
      rw [← h]

lemma processSaleDocSync_conditions (c : Coordinates) (r : ℝ) (d : SaleDoc)
    (item : FeedItem) (h : processSaleDocSync c r d = some item) :
    ∃ loc, d.location = some loc ∧ loc.latitude ≠ 0 ∧ loc.longitude ≠ 0 ∧
      calculateDistance c.latitude c.longitude loc.latitude loc.longitude ≤ r ∧
      ∃ a, d.address = some a ∧ a ≠ "" := by
  obtain ⟨i, dl, da⟩ := d
  cases dl with
  | none => simp [processSaleDocSync] at h
  | some loc =>
    cases da with
    | none =>
      simp only [processSaleDocSync] at h
      split_ifs at h
    | some a =>
      simp only [processSaleDocSync] at h
      split_ifs at h with h1 h2 h3
      exact ⟨loc, rfl, (not_or.mp h1).1, (not_or.mp h1).2, h2, a, rfl, h3⟩

lemma processSaleDocSync_retained (c : Coordinates) (r : ℝ) (d : SaleDoc)
    (loc : Coordinates) (a : String) (hl : d.location = some loc)
    (h1 : loc.latitude ≠ 0) (h2 : loc.longitude ≠ 0)
    (h3 : calculateDistance c.latitude c.longitude loc.latitude loc.longitude ≤ r)
    (ha : d.address = some a) (hne : a ≠ "") :
    ∃ item, processSaleDocSync c r d = some item := by
  obtain ⟨i, dl, da⟩ := d
  simp only at hl ha
  subst hl
  subst ha
  refine Option.isSome_iff_exists.mp ?_
  simp only [processSaleDocSync]
  rw [if_neg (not_or.mpr ⟨h1, h2⟩), if_pos h3, if_neg hne]
  rfl

lemma processSaleDocDeferred_sale (g : ℝ → ℝ → Option String)
    (c : Coordinates) (r : ℝ) (d : SaleDoc) (item : FeedItem)
    (h : processSaleDocDeferred g c r d = some item) : item.sale = d := by
  obtain ⟨i, dl, da⟩ := d
  cases dl with
  | none => simp [processSaleDocDeferred] at h
  | some loc =>
    cases da with
    | none =>
      simp only [processSaleDocDeferred] at h
      split_ifs at h with h1 h2
      simp only [Option.some.injEq] at h
      rw [← h]
    | some a =>
      simp only [processSaleDocDeferred] at h
      split_ifs at h with h1 h2 h3
      simp only [Option.some.injEq] at h
      rw [← h]

lemma processSaleDocDeferred_conditions (g : ℝ → ℝ → Option String)
    (c : Coordinates) (r : ℝ) (d : SaleDoc) (item : FeedItem)
    (h : processSaleDocDeferred g c r d = some item) :
    ∃ loc, d.location = some loc ∧ loc.latitude ≠ 0 ∧ loc.longitude ≠ 0 ∧
      calculateDistance c.latitude c.longitude loc.latitude loc.longitude ≤ r ∧
      (d.address = none ∨ d.address = some "") := by
  obtain ⟨i, dl, da⟩ := d
  cases dl with
  | none => simp [processSaleDocDeferred] at h
  | some loc =>
    cases da with
    | none =>
      simp only [processSaleDocDeferred] at h
      split_ifs at h with h1 h2
      exact ⟨loc, rfl, (not_or.mp h1).1, (not_or.mp h1).2, h2, Or.inl rfl⟩
    | some a =>
      simp only [processSaleDocDeferred] at h
      split_ifs at h with h1 h2 h3
      subst h3
      exact ⟨loc, rfl, (not_or.mp h1).1, (not_or.mp h1).2, h2, Or.inr rfl⟩

lemma processSaleDocDeferred_retained (g : ℝ → ℝ → Option String)
    (c : Coordinates) (r : ℝ) (d : SaleDoc) (loc : Coordinates)
    (hl : d.location = some loc)
    (h1 : loc.latitude ≠ 0) (h2 : loc.longitude ≠ 0)
    (h3 : calculateDistance c.latitude c.longitude loc.latitude loc.longitude ≤ r)
    (ha : d.address = none ∨ d.address = some "") :
    ∃ item, processSaleDocDeferred g c r d = some item := by
  obtain ⟨i, dl, da⟩ := d
  simp only at hl ha
  subst hl
  refine Option.isSome_iff_exists.mp ?_
  rcases ha with ha | ha
  · subst ha
    simp only [processSaleDocDeferred]
    rw [if_neg (not_or.mpr ⟨h1, h2⟩), if_pos h3]
    rfl
  · subst ha
    simp only [processSaleDocDeferred]
    rw [if_neg (not_or.mpr ⟨h1, h2⟩), if_pos h3]
    simp

lemma processSaleDocSync_saleA :
    processSaleDocSync ⟨5, 5⟩ 10 saleA = some itemA := by
  have hd : calculateDistance (5 : ℝ) 5 5 5 = 0 := calculateDistance_self 5 5
  simp only [processSaleDocSync, saleA, itemA, hd]
  rw [if_neg (by norm_num), if_pos (by norm_num), if_neg (by decide)]
  simp [jsRound_zero]

lemma processSaleDocSync_saleB :
    processSaleDocSync ⟨5, 5⟩ 10 saleB = some itemB := by
  have hd : calculateDistance (5 : ℝ) 5 5 5 = 0 := calculateDistance_self 5 5
  simp only [processSaleDocSync, saleB, itemB, hd]
  rw [if_neg (by norm_num), if_pos (by norm_num), if_neg (by decide)]
  simp [jsRound_zero]

lemma filterMapSync_pair :
    [saleA, saleB].filterMap (processSaleDocSync ⟨5, 5⟩ 10) =
      [itemA, itemB] := by
  simp [List.filterMap_cons, processSaleDocSync_saleA, processSaleDocSync_saleB]

lemma publishedSales_pair :
    publishedSales ⟨5, 5⟩ 10 [saleA, saleB] = [itemA, itemB] := by
  rw [publishedSales, filterMapSync_pair]
  apply List.mergeSort_of_sorted
  refine List.pairwise_cons.mpr ⟨?_, List.pairwise_singleton _ _⟩
  intro b hb
  rw [List.mem_singleton] at hb
  subst hb
  simp [feedLe, itemA, itemB]

/-! ## Live-feed theorems -/

/-- Claim C2, counterexample: two sales with stored addresses at exactly
the user's location (equal distance 0) arriving in the snapshot with ids 2
then 1 are published in snapshot order `[2, 1]`, not ascending listing-id
order `[1, 2]` — the sort has no listing-id tie-break. -/
theorem published_tie_order_not_by_id :
    (publishedSales ⟨5, 5⟩ 10 [saleA, saleB]).map (fun i => i.sale.id) =
      [2, 1] ∧ saleB.id < saleA.id ∧ itemA.distance = itemB.distance := by
  rw [publishedSales_pair]
  exact ⟨rfl, by norm_num [saleA, saleB], rfl⟩

/-- Claim C2, amended: the collection passed to `setSales` is sorted
ascending by the stored (rounded) distance and is a permutation of the
synchronously pushed items — the retained listings carrying a truthy
stored address; a retained listing without one suspends at the awaited
reverse-geocode, so its push runs after the sort and the publish and it is
absent from the published collection.  The sort is stable: listings at
equal distances keep their snapshot order, not listing-id order, which is
still deterministic across repeated runs on the same input. -/
theorem published_sorted_stable (coords : Coordinates) (radius : ℝ)
    (docs : List SaleDoc) :
    (publishedSales coords radius docs).Pairwise
      (fun a b => a.distance ≤ b.distance) ∧
    (publishedSales coords radius docs).Perm
      (docs.filterMap (processSaleDocSync coords radius)) ∧
    (∀ a b : FeedItem,
      List.Sublist [a, b] (docs.filterMap (processSaleDocSync coords radius)) →
      a.distance ≤ b.distance →
      List.Sublist [a, b] (publishedSales coords radius docs)) := by
  refine ⟨?_, ?_, ?_⟩
  · have h := List.sorted_mergeSort feedLe_trans feedLe_total
      (docs.filterMap (processSaleDocSync coords radius))
    exact h.imp (by simp [feedLe])
  · exact List.mergeSort_perm _ feedLe
  · intro a b hsub hle
    exact List.pair_sublist_mergeSort feedLe_trans feedLe_total
      (by simp [feedLe, hle]) hsub

/-- Witness for C2 (amended): the two equal-distance feed items, in
snapshot order, form a sublist of the published collection. -/
theorem published_sorted_stable_witness :
    List.Sublist [itemA, itemB] (publishedSales ⟨5, 5⟩ 10 [saleA, saleB]) :=
  (published_sorted_stable ⟨5, 5⟩ 10 [saleA, saleB]).2.2 itemA itemB
    (by rw [filterMapSync_pair]) (by norm_num [itemA, itemB])

/-- Claim C6, counterexample: the published collection does not contain
exactly the coordinate-bearing in-radius listings.  A live sale at
`(0, 10)` — latitude exactly 0, both coordinates present, distance
0 ≤ 10 — is excluded by the truthiness test; and a sale with nonzero
coordinates at the viewer's own location but no stored address is also
absent from the collection passed to `setSales`: its push is deferred past
the sort and the publish by the awaited reverse-geocode. -/
theorem published_not_exactly_retained :
    (⟨1, some ⟨0, 10⟩, some "a"⟩ : SaleDoc).location = some ⟨0, 10⟩ ∧
    calculateDistance 0 10 0 10 ≤ 10 ∧
    publishedSales ⟨0, 10⟩ 10 [⟨1, some ⟨0, 10⟩, some "a"⟩] = [] ∧
    (⟨4, some ⟨5, 5⟩, none⟩ : SaleDoc).location = some ⟨5, 5⟩ ∧
    calculateDistance 5 5 5 5 ≤ 10 ∧
    publishedSales ⟨5, 5⟩ 10 [⟨4, some ⟨5, 5⟩, none⟩] = [] := by
  have h0 : processSaleDocSync ⟨0, 10⟩ 10 ⟨1, some ⟨0, 10⟩, some "a"⟩ = none := by
    simp [processSaleDocSync]
  have h4 : processSaleDocSync ⟨5, 5⟩ 10 ⟨4, some ⟨5, 5⟩, none⟩ = none := by
    simp only [processSaleDocSync]
    split_ifs <;> rfl
  refine ⟨rfl, by rw [calculateDistance_self]; norm_num, ?_, rfl,
    by rw [calculateDistance_self]; norm_num, ?_⟩
  · rw [publishedSales, List.filterMap_cons_none h0, List.filterMap_nil,
      List.mergeSort_nil]
  · rw [publishedSales, List.filterMap_cons_none h4, List.filterMap_nil,
      List.mergeSort_nil]

/-- Claim C6, amended: the collection passed to `setSales` contains
exactly those listings of the snapshot whose latitude and longitude are
both present and nonzero (JavaScript truthiness), whose distance from the
tracked location is at most the radius (inclusive), and whose stored
address is truthy (present and nonempty).  A retained listing without a
truthy stored address is excluded from the published collection — it is
processed without error, but its push is deferred past the publish by the
awaited reverse-geocode and lands in the deferred set instead — and
listings failing the coordinate test are skipped without error. -/
theorem published_membership (g : ℝ → ℝ → Option String) (coords : Coordinates)
    (radius : ℝ) (docs : List SaleDoc) (d : SaleDoc) :
    (d ∈ (publishedSales coords radius docs).map FeedItem.sale ↔
      d ∈ docs ∧ ∃ loc, d.location = some loc ∧ loc.latitude ≠ 0 ∧
        loc.longitude ≠ 0 ∧
        calculateDistance coords.latitude coords.longitude
          loc.latitude loc.longitude ≤ radius ∧
        ∃ a, d.address = some a ∧ a ≠ "") ∧
    (d ∈ (deferredSaleDocs g coords radius docs).map FeedItem.sale ↔
      d ∈ docs ∧ ∃ loc, d.location = some loc ∧ loc.latitude ≠ 0 ∧
        loc.longitude ≠ 0 ∧
        calculateDistance coords.latitude coords.longitude
          loc.latitude loc.longitude ≤ radius ∧
        (d.address = none ∨ d.address = some "")) := by
  constructor
  · constructor
    · intro h
      obtain ⟨item, hmem, hsale⟩ := List.mem_map.mp h
      simp only [publishedSales, List.mem_mergeSort] at hmem
      obtain ⟨a, ha, hf⟩ := List.mem_filterMap.mp hmem
      have hs : a = d := by rw [← processSaleDocSync_sale _ _ _ _ hf, hsale]
      subst hs
      exact ⟨ha, processSaleDocSync_conditions _ _ _ _ hf⟩
    · rintro ⟨hd, loc, hl, h1, h2, h3, a, ha, hne⟩
      obtain ⟨item, hf⟩ :=
        processSaleDocSync_retained coords radius d loc a hl h1 h2 h3 ha hne
      refine List.mem_map.mpr ⟨item, ?_, processSaleDocSync_sale _ _ _ _ hf⟩
      simp only [publishedSales, List.mem_mergeSort]
      exact List.mem_filterMap.mpr ⟨d, hd, hf⟩
  · constructor
    · intro h
      obtain ⟨item, hmem, hsale⟩ := List.mem_map.mp h
      simp only [deferredSaleDocs] at hmem
      obtain ⟨a, ha, hf⟩ := List.mem_filterMap.mp hmem
      have hs : a = d := by rw [← processSaleDocDeferred_sale _ _ _ _ _ hf, hsale]
      subst hs
      exact ⟨ha, processSaleDocDeferred_conditions _ _ _ _ _ hf⟩
    · rintro ⟨hd, loc, hl, h1, h2, h3, ha⟩
      obtain ⟨item, hf⟩ :=
        processSaleDocDeferred_retained g coords radius d loc hl h1 h2 h3 ha
      refine List.mem_map.mpr ⟨item, ?_, processSaleDocDeferred_sale _ _ _ _ _ hf⟩
      simp only [deferredSaleDocs]
      exact List.mem_filterMap.mpr ⟨d, hd, hf⟩

/-- Claim C10: the feed's coordinate-validity test is truthiness of each
component, so a listing whose latitude is exactly 0 or whose longitude is
exactly 0 is classified as missing coordinates and never contributes an
item to the published feed, even though both coordinates are present. -/
theorem zero_coordinate_excluded (g : ℝ → ℝ → Option String)
    (coords : Coordinates) (radius : ℝ) (docs : List SaleDoc)
    (d : SaleDoc) (loc : Coordinates) :
    d.location = some loc → loc.latitude = 0 ∨ loc.longitude = 0 →
    ∀ item ∈ processSnapshot g coords radius docs, item.sale ≠ d := by
  intro hl hz item hitem hcontra
  simp only [processSnapshot, List.mem_mergeSort] at hitem
  obtain ⟨a, ha, hf⟩ := List.mem_filterMap.mp hitem
  have had : a = d := by rw [← processSaleDoc_sale _ _ _ _ _ hf, hcontra]
  rw [had, processSaleDoc_zero g coords radius d loc hl hz] at hf
  exact Option.noConfusion hf

/-- Witness for C10: a sale on the equator (latitude 0, longitude 10) at
the viewer's own location is absent from the published feed. -/
theorem zero_coordinate_excluded_witness :
    (⟨1, some ⟨0, 10⟩, some "a"⟩ : SaleDoc) ∉
      (processSnapshot gNone ⟨0, 10⟩ 10
        [⟨1, some ⟨0, 10⟩, some "a"⟩]).map FeedItem.sale := by
  intro h
  obtain ⟨item, hmem, hsale⟩ := List.mem_map.mp h
  exact zero_coordinate_excluded gNone ⟨0, 10⟩ 10 _ _ ⟨0, 10⟩ rfl (Or.inl rfl)
    item hmem hsale

/-! ## Map-bounds theorems -/

lemma cos_sixty_deg : Real.cos ((60 : ℝ) * (Real.pi / 180)) = 1 / 2 := by
  have h : (60 : ℝ) * (Real.pi / 180) = Real.pi / 3 := by ring
  rw [h, Real.cos_pi_div_three]

/-- Claim C7, counterexample: at center latitude 60° with radius 69.172
miles, the returned viewport's east edge sits 1 degree from the center
while the cos-corrected longitude extent of the radius circle is 2 degrees
— the circle is not inscribed in the viewport, whose longitude extent is
not cos-corrected (the code takes the minimum of the two offsets for both
axes). -/
theorem calculateMapBounds_not_inscribed :
    (calculateMapBounds ⟨60, 0⟩ 69.172).northEast.longitude = 1 ∧
    (69.172 : ℝ) / (69.172 * Real.cos ((60 : ℝ) * (Real.pi / 180))) = 2 ∧
    (1 : ℝ) < 2 := by
  refine ⟨?_, ?_, by norm_num⟩
  · simp only [calculateMapBounds]
    rw [cos_sixty_deg]
    rw [show (69.172 : ℝ) / 69.172 = 1 by norm_num,
      show (69.172 : ℝ) / (69.172 * (1 / 2)) = 2 by norm_num,
      min_eq_left (by norm_num : (1 : ℝ) ≤ 2),
      max_eq_right (by norm_num : (0.001 : ℝ) ≤ 1)]
    norm_num
  · rw [cos_sixty_deg]
    norm_num

/-- Claim C7, amended: the bounds are a square in degree space centered on
the center, with half-side `max 0.001 (min latOffset lngOffset)` — so the
viewport is never zero-size — where `latOffset = radius / 69.172` and
`lngOffset` is the cos-corrected longitude offset; when `cos(latitude)` is
in `(0, 1]`, the radius is nonnegative, and `latOffset` is at least the
0.001 floor, the half-side is exactly `radius / 69.172` (the circle is
inscribed in the latitude direction only). -/
theorem calculateMapBounds_square (center : Coordinates) (radius : ℝ) :
    (calculateMapBounds center radius).northEast.latitude - center.latitude =
      (calculateMapBounds center radius).northEast.longitude -
        center.longitude ∧
    (calculateMapBounds center radius).northEast.latitude - center.latitude =
      center.latitude - (calculateMapBounds center radius).southWest.latitude ∧
    (calculateMapBounds center radius).northEast.longitude - center.longitude =
      center.longitude -
        (calculateMapBounds center radius).southWest.longitude ∧
    0.001 ≤ (calculateMapBounds center radius).northEast.latitude -
      center.latitude ∧
    (0 ≤ radius →
      0 < Real.cos (center.latitude * (Real.pi / 180)) →
      Real.cos (center.latitude * (Real.pi / 180)) ≤ 1 →
      0.001 ≤ radius / 69.172 →
      (calculateMapBounds center radius).northEast.latitude - center.latitude =
        radius / 69.172) := by
  simp only [calculateMapBounds]
  refine ⟨by ring, by ring, by ring, by simp, ?_⟩
  intro hr hc hc1 hfloor
  have hlo : radius / 69.172 ≤
      radius / (69.172 * Real.cos (center.latitude * (Real.pi / 180))) :=
    div_le_div_of_nonneg_left hr (by nlinarith) (by nlinarith)
  rw [min_eq_left hlo, max_eq_right hfloor]
  ring

/-- Witness for C7 (amended): at center latitude 60° and radius 69.172
(cos 60° = 1/2 ∈ (0,1], latOffset = 1 ≥ 0.001) the viewport's latitude
half-side equals `radius / 69.172`. -/
theorem calculateMapBounds_square_witness :
    (calculateMapBounds ⟨60, 0⟩ 69.172).northEast.latitude - 60 =
      (69.172 : ℝ) / 69.172 :=
  (calculateMapBounds_square ⟨60, 0⟩ 69.172).2.2.2.2 (by norm_num)
    (by rw [show ((⟨60, 0⟩ : Coordinates).latitude * (Real.pi / 180)) =
        (60 : ℝ) * (Real.pi / 180) from rfl, cos_sixty_deg]; norm_num)
    (by rw [show ((⟨60, 0⟩ : Coordinates).latitude * (Real.pi / 180)) =
        (60 : ℝ) * (Real.pi / 180) from rfl, cos_sixty_deg]; norm_num)
    (by norm_num)

/-- Witness for C3 (amended): the proportionality instantiated at the
concrete pair `(0,0)`–`(0,180)`. -/
theorem server_client_distance_proportional_witness :
    serverCalculateDistance 0 0 0 180 =
      (3963 / 3959) * calculateDistance 0 0 0 180 :=
  (server_client_distance_proportional 0 0 0 180).1

/-- Witness for C4 (amended): with one eligible registration and a sale
event lacking coordinates, no send is initiated yet the fan-out rejects. -/
theorem missing_coordinates_dispatch_witness :
    sentTokens none [⟨"owner", "tok", some ⟨0, 0⟩, some 10⟩] = [] ∧
    fanoutRejects none [⟨"owner", "tok", some ⟨0, 0⟩, some 10⟩] :=
  ⟨(missing_coordinates_dispatch _).1,
   (missing_coordinates_dispatch _).2.mpr
     ⟨⟨"owner", "tok", some ⟨0, 0⟩, some 10⟩, List.mem_singleton.mpr rfl,
      ⟨0, 0⟩, 10, rfl, rfl, by norm_num⟩⟩

/-- Witness for C6 (amended): a sale with nonzero coordinates, a truthy
stored address, and distance 0 ≤ 10 appears in the published collection,
and the same sale with its address removed lands in the deferred set
instead. -/
theorem published_membership_witness :
    ((⟨3, some ⟨5, 5⟩, some "z"⟩ : SaleDoc) ∈
      (publishedSales ⟨5, 5⟩ 10
        [⟨3, some ⟨5, 5⟩, some "z"⟩]).map FeedItem.sale) ∧
    ((⟨3, some ⟨5, 5⟩, none⟩ : SaleDoc) ∈
      (deferredSaleDocs gNone ⟨5, 5⟩ 10
        [⟨3, some ⟨5, 5⟩, none⟩]).map FeedItem.sale) :=
  ⟨(published_membership gNone ⟨5, 5⟩ 10 _ _).1.mpr
    ⟨List.mem_singleton.mpr rfl, ⟨5, 5⟩, rfl, by norm_num, by norm_num,
     by show calculateDistance 5 5 5 5 ≤ 10
        rw [calculateDistance_self]; norm_num,
     "z", rfl, by decide⟩,
   (published_membership gNone ⟨5, 5⟩ 10 _ _).2.mpr
    ⟨List.mem_singleton.mpr rfl, ⟨5, 5⟩, rfl, by norm_num, by norm_num,
     by show calculateDistance 5 5 5 5 ≤ 10
        rw [calculateDistance_self]; norm_num,
     Or.inl rfl⟩⟩

/-- Witness for C9: symmetry and self-distance instantiated at the
concrete coordinates `(1,2)` and `(3,4)`. -/
theorem distance_symm_and_self_zero_witness :
    calculateDistance 1 2 3 4 = calculateDistance 3 4 1 2 ∧
    serverCalculateDistance 1 2 3 4 = serverCalculateDistance 3 4 1 2 ∧
    calculateDistance 1 2 1 2 = 0 ∧
    serverCalculateDistance 1 2 1 2 = 0 :=
  distance_symm_and_self_zero 1 2 3 4

end
